import Mathlib

/- Verification development for the flippr neutron spin-flipper controller.

   Shallow embedding of `src/DAQTasks.py` and `src/main.py` over exact rational
   arithmetic (Python floats are modeled as rationals; all decimal literals in
   the source are exact in this model), with theorems checking the natural
   language specification's claims against the embedded code. -/

set_option maxHeartbeats 1000000
set_option maxRecDepth 10000

/- ## PulseTimingMonitor: `ReadbackTask` counters and `EveryNCallback`
      (DAQTasks.py lines 174-250) -/

/-- Timing state of `ReadbackTask`, fields as in `__init__` (DAQTasks.py 177-182):
`i` the callback counter, `freq` the last computed frequency, `missed` the
missed-pulse counter, `time` the wall-clock timestamp of the previous callback
(initialized to the construction time `time()`), `sum_delta_t` the accumulated
inter-callback deltas.  The `self.data` sample buffer is written by the device
read at the top of the callback and never consulted by the timing logic, so it
is omitted here. -/
structure MonitorState where
  i : Nat
  freq : ℚ
  missed : Nat
  time : ℚ
  sum_delta_t : ℚ
deriving DecidableEq

/-- Counter initialization performed by `ReadbackTask.__init__` (DAQTasks.py
177-182); `t0` is the wall-clock time at construction (`self.time = time()`). -/
def ReadbackTask.init (t0 : ℚ) : MonitorState :=
  { i := 0, freq := 0, missed := 0, time := t0, sum_delta_t := 0 }

/-- One invocation of `ReadbackTask.EveryNCallback` (DAQTasks.py 220-250) with
wall clock reading `t`.  Source order: `sum_delta_t += t - self.time`; if
`self.i % 10 == 0 and self.i > 0` then `freq = self.i / self.sum_delta_t`,
`sum_delta_t = 0`, `i = 0`, and `missed += 1` when `np.abs(freq - 10) > 0.1`;
finally `i += 1` and `time = t`.  Note the counter is tested before the final
increment, and the threshold is the absolute value 0.1 (in Hz), exactly as in
the source. -/
def ReadbackTask.everyNCallback (t : ℚ) (s : MonitorState) : MonitorState :=
  let sum := s.sum_delta_t + (t - s.time)
  if s.i % 10 = 0 ∧ 0 < s.i then
    let freq : ℚ := (s.i : ℚ) / sum
    let missed := if 1/10 < abs (freq - 10) then s.missed + 1 else s.missed
    { i := 0 + 1, freq := freq, missed := missed, time := t, sum_delta_t := 0 }
  else
    { s with i := s.i + 1, time := t, sum_delta_t := sum }

/-- Feed a list of callback timestamps to the monitor in order. -/
def feedTimestamps (ts : List ℚ) (s : MonitorState) : MonitorState :=
  ts.foldl (fun m t => ReadbackTask.everyNCallback t m) s

/-- The ten evenly spaced timestamps 0, 0.1, ..., 0.9 used by the spec's
PulseTimingMonitor test vector. -/
def tsTen : List ℚ :=
  [0, 1/10, 2/10, 3/10, 4/10, 5/10, 6/10, 7/10, 8/10, 9/10]

/-- Eleven evenly spaced timestamps 0, 0.1, ..., 1.0 (a perfect 10 Hz train). -/
def tsEleven : List ℚ := tsTen ++ [1]

/-- The spec's gapped test vector 0, 0.1, ..., 0.8, 2.0. -/
def tsGap : List ℚ :=
  [0, 1/10, 2/10, 3/10, 4/10, 5/10, 6/10, 7/10, 8/10, 2]

/-- Eleven timestamps whose first computed frequency is 9.5 Hz: ten timestamps
0, ..., 0.9 followed by 20/19, so that the accumulated delta at the eleventh
callback is 20/19 and the computed frequency is 10 / (20/19) = 9.5. -/
def tsTol : List ℚ := tsTen ++ [20/19]

/- ## WaveformSynthesizer: the `AnalogTask` buffer (DAQTasks.py lines 68-77)

   `t = np.linspace(1e-6, 50e-3, num=50e3)` produces 50000 sample times from
   1e-6 to 50e-3 inclusive; the step works out to exactly 1e-6.  The buffer is
   `lamb / t` clipped above at `amplitude`, with one extra trailing sample equal
   to the (clipped) first element of the buffer: `np.append(self.write,
   [self.write[0]])`.  (The adjacent comment in the source claims this appends
   a zero; it appends `write[0]`.) -/

/-- First sample time of the linspace grid, `1e-6`. -/
def tmin : ℚ := 1/1000000

/-- Number of analytic samples, `num=50e3`. -/
def nSamp : Nat := 50000

/-- Step of `np.linspace(1e-6, 50e-3, num=50000)`: `(50e-3 - 1e-6)/(50000-1)`. -/
def dt : ℚ := (50/1000 - tmin) / ((nSamp : ℚ) - 1)

/-- Sample time `t_k` of the linspace grid. -/
def tval (k : Nat) : ℚ := tmin + (k : ℚ) * dt

/-- The elementwise clip `self.write[np.where(self.write > amplitude)] = amplitude`. -/
def clipAmp (amplitude v : ℚ) : ℚ := if amplitude < v then amplitude else v

/-- Sample `k` of the clipped analytic waveform `lamb / t`. -/
def writeSample (lamb amplitude : ℚ) (k : Nat) : ℚ :=
  clipAmp amplitude (lamb / tval k)

/-- The full `self.write` buffer of `AnalogTask.__init__` (DAQTasks.py 71-77):
50000 clipped analytic samples followed by one trailing copy of the first
(clipped) sample. -/
def analogWrite (lamb amplitude : ℚ) : List ℚ :=
  (List.ofFn (fun k : Fin nSamp => writeSample lamb amplitude k.val))
    ++ [writeSample lamb amplitude 0]

/- ## FlipperController: the `Flippr` window state machine (main.py lines 128-350)

   GUI-only effects (spin-box widgets, the running/not-running indicator text,
   the matplotlib plot, the filename line edit) are pure functions of the
   modeled state and are omitted, as the spec places the operator surface out
   of scope.  Device calls are recorded in an append-only `trace`.

   main.py line 281 passes a filename to `AnalogTask`; the `AnalogTask` in
   `src/DAQTasks.py` is the two-argument analytic variant, so the file-capable
   constructor referenced by the caller is repository code missing from src/.
   Its construction is therefore modeled from the spec as an abstract device
   action carrying (decay constant, amplitude, filename); with an empty
   filename it writes the analytic buffer `analogWrite`. -/

/-- Device calls issued by `Flippr`, in the granularity at which main.py issues
them: each task constructor (which bundles the channel, clock, trigger and
buffer-write calls it performs) is one action, as are `StartTask`, `ClearTask`
and `ZeroOutput`.  `clearReadback` is never issued by any operation of the
program; it is included so that the absence of a readback clear is a statement
about the trace rather than about the type. -/
inductive DevAct where
  | createComp (amp : ℚ)
  | startComp
  | clearComp
  | createFlip (lamb amp : ℚ) (filename : String)
  | startFlip
  | clearFlip
  | zeroOutput
  | createReadback
  | startReadback
  | clearReadback
deriving DecidableEq

/-- State of the `Flippr` main window (main.py 145-205): the `running` and
`interrupted` flags (source uses 0/1 ints, modeled as Bool), the three spin-box
values, the waveform filename, the task handles `cmptask` and `atask` (modeled
by the parameters they were constructed with; `none` when the attribute is
absent or the task cleared), the readback task counters, and the device-call
trace. -/
structure FState where
  running : Bool
  interrupted : Bool
  compSpin : ℚ
  ampSpin : ℚ
  decaySpin : ℚ
  filename : String
  cmptask : Option ℚ
  atask : Option (ℚ × ℚ × String)
  rtask : MonitorState
  trace : List DevAct
deriving DecidableEq

/-- The `__init__` of `Flippr` (main.py 145-205): flags cleared, filename empty,
`ReadbackTask()` constructed and `StartTask`ed once (lines 187-188).  Spin-box
startup values come from the UI file and are taken as parameters; `t0` is the
construction wall-clock time stored by the readback counters. -/
def Flippr.init (comp amp decay t0 : ℚ) : FState :=
  { running := false, interrupted := false,
    compSpin := comp, ampSpin := amp, decaySpin := decay,
    filename := "",
    cmptask := none, atask := none,
    rtask := ReadbackTask.init t0,
    trace := [DevAct.createReadback, DevAct.startReadback] }

/-- The shared on-branch body (main.py 268-296 and its verbatim duplicate
313-342): construct `CompensationTask(comp_spin.value())`, start and clear it,
construct `AnalogTask(decay_spin.value(), amplitude_spin.value(), filename)`,
start it, and finally set `running = 1`. -/
def Flippr.onBody (s : FState) : FState :=
  { s with
    cmptask := some s.compSpin,
    atask := some (s.decaySpin, s.ampSpin, s.filename),
    running := true,
    trace := s.trace ++
      [DevAct.createComp s.compSpin, DevAct.startComp, DevAct.clearComp,
       DevAct.createFlip s.decaySpin s.ampSpin s.filename, DevAct.startFlip] }

/-- The shared off-branch body (main.py 301-308 and its verbatim duplicate
344-350): `self.atask.ClearTask()`, `ZeroOutput()`, then `running = 0`.  The
readback task is untouched. -/
def Flippr.offBody (s : FState) : FState :=
  { s with
    atask := none,
    running := false,
    trace := s.trace ++ [DevAct.clearFlip, DevAct.zeroOutput] }

/-- `Flippr.on` (main.py 266-298): the body runs only when `running == 0`,
otherwise `pass`. -/
def Flippr.on (s : FState) : FState :=
  if s.running then s else Flippr.onBody s

/-- `Flippr.off` (main.py 300-310): the body runs only when `running == 1`,
otherwise `pass`. -/
def Flippr.off (s : FState) : FState :=
  if s.running then Flippr.offBody s else s

/-- `Flippr.onoff` (main.py 312-350): `if self.running == 0` run the on body
else run the off body. -/
def Flippr.onoff (s : FState) : FState :=
  if s.running then Flippr.offBody s else Flippr.onBody s

/-- `Flippr.toggle` (main.py 216-223): flag 1 is `on()`, flag 0 is `off()`,
anything else is `onoff()`. -/
def Flippr.toggle (flag : ℤ) (s : FState) : FState :=
  if flag = 1 then Flippr.on s
  else if flag = 0 then Flippr.off s
  else Flippr.onoff s

/-- `decay_spin.setValue` as a state update. -/
def setDecaySpin (v : ℚ) (s : FState) : FState := { s with decaySpin := v }

/-- `amplitude_spin.setValue` as a state update. -/
def setAmpSpin (v : ℚ) (s : FState) : FState := { s with ampSpin := v }

/-- `comp_spin.setValue` as a state update. -/
def setCompSpin (v : ℚ) (s : FState) : FState := { s with compSpin := v }

/-- `Flippr.const` (main.py 225-236): when running, `onoff()` (turning off),
set the decay spin, and — because `turnbackon` was set to 1 exactly when the
flipper was running — `onoff()` again (turning back on); otherwise just set the
spin. -/
def Flippr.const (v : ℚ) (s : FState) : FState :=
  if s.running then Flippr.onoff (setDecaySpin v (Flippr.onoff s))
  else setDecaySpin v s

/-- `Flippr.amplitude` (main.py 238-249), same `turnbackon` pattern on the
amplitude spin. -/
def Flippr.amplitude (v : ℚ) (s : FState) : FState :=
  if s.running then Flippr.onoff (setAmpSpin v (Flippr.onoff s))
  else setAmpSpin v s

/-- `Flippr.compensate` (main.py 251-262), same `turnbackon` pattern on the
compensation spin. -/
def Flippr.compensate (v : ℚ) (s : FState) : FState :=
  if s.running then Flippr.onoff (setCompSpin v (Flippr.onoff s))
  else setCompSpin v s

/-- `Flippr.fn` (main.py 211-214): store the filename (and echo it in the line
edit, a GUI effect).  There is no off/on cycle here, whatever the value of
`running`. -/
def Flippr.fn (f : String) (s : FState) : FState := { s with filename := f }

/- ## Failure semantics of `on()` (claim C7)

   `Flippr.on` contains no exception handling, so a failing device call aborts
   the operation at that point with every earlier mutation retained.  The port
   oracle says which device calls succeed; the error value carries the state as
   it stands when the exception propagates out of `on()`. -/

/-- Device failure, tagged with the call that raised. -/
inductive DAQError where
  | devFail (call : DevAct)
deriving DecidableEq

/-- `Flippr.on` against a fallible device port: the same call sequence as
`Flippr.onBody`, aborting with the partially mutated state at the first call
the port fails.  In the source, `self.cmptask` / `self.atask` are attribute
assignments performed after the corresponding constructor returns, and
`running = 1` is the last statement of the body, so it is reached only if every
device call succeeded. -/
def Flippr.onPort (port : DevAct → Bool) (s : FState) : Except (DAQError × FState) FState :=
  if s.running then Except.ok s
  else if port (DevAct.createComp s.compSpin) = false then
    Except.error (DAQError.devFail (DevAct.createComp s.compSpin), s)
  else if port DevAct.startComp = false then
    Except.error (DAQError.devFail DevAct.startComp,
      { s with cmptask := some s.compSpin,
               trace := s.trace ++ [DevAct.createComp s.compSpin] })
  else if port DevAct.clearComp = false then
    Except.error (DAQError.devFail DevAct.clearComp,
      { s with cmptask := some s.compSpin,
               trace := s.trace ++ [DevAct.createComp s.compSpin, DevAct.startComp] })
  else if port (DevAct.createFlip s.decaySpin s.ampSpin s.filename) = false then
    Except.error (DAQError.devFail (DevAct.createFlip s.decaySpin s.ampSpin s.filename),
      { s with cmptask := some s.compSpin,
               trace := s.trace ++ [DevAct.createComp s.compSpin, DevAct.startComp,
                                    DevAct.clearComp] })
  else if port DevAct.startFlip = false then
    Except.error (DAQError.devFail DevAct.startFlip,
      { s with cmptask := some s.compSpin,
               atask := some (s.decaySpin, s.ampSpin, s.filename),
               trace := s.trace ++ [DevAct.createComp s.compSpin, DevAct.startComp,
                                    DevAct.clearComp,
                                    DevAct.createFlip s.decaySpin s.ampSpin s.filename] })
  else Except.ok (Flippr.onBody s)

/- ## The beam-loss supervisor tick (main.py lines 190-205) -/

/-- Python runtime errors surfaced by the embedding. -/
inductive PyError where
  | unboundLocal
deriving DecidableEq

/-- The nested `timeout` callback registered on the 1 Hz `timeoutClock`
(main.py 193-203).  Its first statement is `time = time()`; because `time` is
assigned in the function body, Python treats it as a local name throughout the
body, so the call on the right-hand side reads an unbound local and raises
`UnboundLocalError` before any guard is evaluated.  The faithful embedding of
the body is therefore an error on every tick. -/
def Flippr.timeoutTick (_now : ℚ) (_s : FState) : Except PyError FState :=
  Except.error PyError.unboundLocal

/-- The guard and action logic the `timeout` body spells out (main.py 196-202),
as it would execute were the shadowed name rebound — i.e. with `now` standing
for the intended `time()` reading.  First `if`: when `running == 1` and
`np.abs(now - self.rtask.time) > 5`, call `self.off()` then set
`interrupted = 1`.  Second `if` (re-reading the just-mutated flags): when
`running == 0`, `interrupted == 1` and `np.abs(now - self.rtask.time) < 5`,
call `self.on()` then set `interrupted = 0`. -/
def Flippr.timeoutTickRescoped (now : ℚ) (s : FState) : FState :=
  let s1 :=
    if s.running ∧ 5 < abs (now - s.rtask.time) then
      { Flippr.off s with interrupted := true }
    else s
  if s1.running = false ∧ s1.interrupted ∧ abs (now - s1.rtask.time) < 5 then
    { Flippr.on s1 with interrupted := false }
  else s1

/- ## Program operations, for whole-program invariants (claims C9, C10) -/

/-- The operations of the program that act on the `Flippr` state: the GUI /
remote slots, the supervisor tick, and the readback completion callback. -/
inductive Op where
  | on
  | off
  | onoff
  | toggle (flag : ℤ)
  | const (v : ℚ)
  | amplitude (v : ℚ)
  | compensate (v : ℚ)
  | fn (f : String)
  | tick (now : ℚ)
  | callback (t : ℚ)

/-- Apply one operation.  A `tick` whose embedding raises leaves the state as
it was when the exception escaped (the `timeout` body raises before any
mutation, so nothing has changed). -/
def applyOp (op : Op) (s : FState) : FState :=
  match op with
  | Op.on => Flippr.on s
  | Op.off => Flippr.off s
  | Op.onoff => Flippr.onoff s
  | Op.toggle f => Flippr.toggle f s
  | Op.const v => Flippr.const v s
  | Op.amplitude v => Flippr.amplitude v s
  | Op.compensate v => Flippr.compensate v s
  | Op.fn f => Flippr.fn f s
  | Op.tick now =>
    match Flippr.timeoutTick now s with
    | Except.ok s' => s'
    | Except.error _ => s
  | Op.callback t => { s with rtask := ReadbackTask.everyNCallback t s.rtask }

/-- Run a list of operations left to right. -/
def runOps (ops : List Op) (s : FState) : FState :=
  ops.foldl (fun t op => applyOp op t) s

/-- Readback-task lifecycle actions (create / start / clear of the readback
task). -/
def readbackLifecycle (a : DevAct) : Bool :=
  match a with
  | DevAct.createReadback => true
  | DevAct.startReadback => true
  | DevAct.clearReadback => true
  | _ => false

/- ## RemoteControlChannel: `SignalServer.listenToClient` (main.py lines 76-125)

   The handler receives one TCP packet (`data = client.recv(size)`) and runs
   five keyword blocks in sequence; substring tests are performed on
   `str(data)`, which wraps the decoded text in a `b` and two quote marks.
   Those three wrapper characters can complete no keyword, digit, sign, query
   mark or toggle-flag test, so packets are modeled by their decoded text.

   Three Python-3 facts shape every path of the handler, and are modeled as
   written:
   - `client.send(str(...))` in each query branch passes a `str` where bytes
     are required and raises `TypeError`, so a query reply is never delivered;
   - `float(re.findall(...)[0])` raises `IndexError` when the packet holds no
     numeric literal, aborting the iteration;
   - after the blocks, `client.shutdown()` is called without its mandatory
     argument and raises `TypeError`.
   Any exception lands in the bare `except BaseException` clause, whose own
   `client.shutdown()` raises again, ending the handler thread.  Hence every
   received packet is processed exactly once and the connection is torn down
   afterwards: the `closed` flag of the result is true on every path, and the
   `raise Exception('Client disconnected')` path for packets without "toggle"
   emits nothing further.  Signal emissions are the only channel from the
   handler to the controller, so an empty emission list means the controller
   state is untouched. -/

/-- Signals emitted by `SignalServer` (main.py 42-46), with the parsed payload. -/
inductive Emit where
  | comp (v : ℚ)
  | amp (v : ℚ)
  | const (v : ℚ)
  | fn (f : String)
  | toggle (flag : ℤ)
deriving DecidableEq

/-- Python's `needle in hay` substring test on character lists. -/
def containsSeq (needle : List Char) : List Char → Bool
  | [] => needle.isEmpty
  | c :: rest => needle.isPrefixOf (c :: rest) || containsSeq needle rest

/-- Python's `needle in hay` on strings. -/
def strContains (needle hay : String) : Bool :=
  containsSeq needle.toList hay.toList

/-- Decimal digit test, `\d` of the pattern. -/
def isDigitC (c : Char) : Bool := ('0' ≤ c) && (c ≤ '9')

/-- Match of the regex branch `\d*\.\d+` at the head of the list (digits,
a literal dot, then at least one digit), returning the matched characters.
Backtracking over the greedy `\d*` cannot help, because giving a digit back
forces the literal dot to match a digit; so the greedy reading is exact. -/
def matchFracCore (cs : List Char) : Option (List Char) :=
  let ds := cs.takeWhile isDigitC
  match cs.dropWhile isDigitC with
  | '.' :: r2 =>
    let fs := r2.takeWhile isDigitC
    if fs.isEmpty then none else some (ds ++ '.' :: fs)
  | _ => none

/-- Match of the regex branch `[-+]?\d*\.\d+` at the head of the list.  When a
sign is present, matching without consuming it would require the literal dot to
match the sign character, so trying the signed reading alone is exact. -/
def matchDotNum (cs : List Char) : Option (List Char) :=
  match cs with
  | '-' :: r => (matchFracCore r).map (fun m => '-' :: m)
  | '+' :: r => (matchFracCore r).map (fun m => '+' :: m)
  | _ => matchFracCore cs

/-- Match of the regex branch `\d+` at the head of the list. -/
def matchIntNum (cs : List Char) : Option (List Char) :=
  let ds := cs.takeWhile isDigitC
  if ds.isEmpty then none else some ds

/-- First match of `re.findall(r"[-+]?\d*\.\d+|\d+", s)`: scan positions left
to right, trying the alternation branches in order at each position. -/
def firstNumToken : List Char → Option (List Char)
  | [] => none
  | c :: rest =>
    match matchDotNum (c :: rest) with
    | some m => some m
    | none =>
      match matchIntNum (c :: rest) with
      | some m => some m
      | none => firstNumToken rest

/-- Value of a digit string. -/
def digitsToNat (ds : List Char) : Nat :=
  ds.foldl (fun n c => 10 * n + (c.toNat - '0'.toNat)) 0

/-- Python `float()` on an unsigned matched literal (integer part, optional
dot with fractional digits), exact in ℚ. -/
def unsignedLitToRat (cs : List Char) : ℚ :=
  let ip := cs.takeWhile isDigitC
  let rest := cs.dropWhile isDigitC
  if rest.head? = some '.' then
    (digitsToNat ip : ℚ) +
      (digitsToNat (rest.drop 1) : ℚ) / ((10 : ℚ) ^ (rest.drop 1).length)
  else (digitsToNat ip : ℚ)

/-- Python `float()` on a matched literal, handling the optional sign. -/
def litToRat (cs : List Char) : ℚ :=
  if cs.head? = some '-' then -(unsignedLitToRat (cs.drop 1))
  else if cs.head? = some '+' then unsignedLitToRat (cs.drop 1)
  else unsignedLitToRat cs

/-- The `float(re.findall(r"[-+]?\d*\.\d+|\d+", str(data))[0])` extraction:
`none` when `findall` returns no match (so the subscript raises `IndexError`). -/
def pyFirstFloat (s : String) : Option ℚ :=
  (firstNumToken s.toList).map litToRat

/-- Result of handling one received packet: the signals emitted, and whether
the connection is torn down afterwards (it always is, see the section note). -/
structure PacketResult where
  emits : List Emit
  closed : Bool
deriving DecidableEq

/-- The flag the toggle block emits (main.py 111-116): the "1" test before
the "0" test before the bare-toggle fallback. -/
def toggleFlag (d : String) : ℤ :=
  if strContains "1" d then 1
  else if strContains "0" d then 0
  else -1

/-- The `toggle` block (main.py 110-118) and the trailing `else` clause that
raises `Exception('Client disconnected')` when the packet does not contain
"toggle". -/
def toggleBlock (d : String) (acc : List Emit) : PacketResult :=
  if d ≠ "" ∧ strContains "toggle" d then
    { emits := acc ++ [Emit.toggle (toggleFlag d)], closed := true }
  else
    { emits := acc, closed := true }

/-- Python's `str.replace(needle, "")` for the fixed needle "file":
non-overlapping occurrences removed left to right.  The recursion is driven by
a fuel counter (each step consumes at least one character, so a fuel equal to
the list length is enough) to keep the definition structurally recursive. -/
def removeFileWordAux : Nat → List Char → List Char
  | 0, _ => []
  | _, [] => []
  | fuel + 1, c :: rest =>
    if ['f', 'i', 'l', 'e'].isPrefixOf (c :: rest) then
      removeFileWordAux fuel (rest.drop 3)
    else
      c :: removeFileWordAux fuel rest

/-- Python's `data.replace("file", "")`. -/
def removeFileWord (cs : List Char) : List Char :=
  removeFileWordAux cs.length cs

/-- The de-spacing `str(data,'utf-8').replace(" ","")` of the file block. -/
def despace (d : String) : String :=
  String.mk (d.toList.filter (fun c => c != ' '))

/-- The filename the file block emits: the de-spaced packet text with every
"file" removed, `data.replace("file","")` after the rebinding. -/
def emittedFileName (d : String) : String :=
  String.mk (removeFileWord (despace d).toList)

/-- The `file` block (main.py 104-109).  The query branch attempts
`client.send(str(self.parent.filename))` and raises.  Otherwise `data` is
rebound to the de-spaced decoded text — so the later toggle block sees that
rebound text — and the emitted filename additionally has every "file" removed. -/
def fileBlock (d : String) (acc : List Emit) : PacketResult :=
  if d ≠ "" ∧ strContains "file" d then
    if strContains "?" d then { emits := acc, closed := true }
    else toggleBlock (despace d) (acc ++ [Emit.fn (emittedFileName d)])
  else toggleBlock d acc

/-- The `const` block (main.py 99-103): on a query, `client.send` raises; on a
missing numeric literal, the subscript raises; otherwise emit and continue. -/
def constBlock (d : String) (acc : List Emit) : PacketResult :=
  if d ≠ "" ∧ strContains "const" d then
    if strContains "?" d then { emits := acc, closed := true }
    else
      match pyFirstFloat d with
      | none => { emits := acc, closed := true }
      | some v => fileBlock d (acc ++ [Emit.const v])
  else fileBlock d acc

/-- The `amp` block (main.py 94-98), same shape as the `const` block. -/
def ampBlock (d : String) (acc : List Emit) : PacketResult :=
  if d ≠ "" ∧ strContains "amp" d then
    if strContains "?" d then { emits := acc, closed := true }
    else
      match pyFirstFloat d with
      | none => { emits := acc, closed := true }
      | some v => constBlock d (acc ++ [Emit.amp v])
  else constBlock d acc

/-- One iteration of `SignalServer.listenToClient` (main.py 85-125) on the
decoded text of a received packet, starting with the `comp` block
(main.py 89-93). -/
def handlePacket (d : String) : PacketResult :=
  if d ≠ "" ∧ strContains "comp" d then
    if strContains "?" d then { emits := [], closed := true }
    else
      match pyFirstFloat d with
      | none => { emits := [], closed := true }
      | some v => ampBlock d ([] ++ [Emit.comp v])
  else ampBlock d []

/- ## Concrete scenario states used by the claim checks -/

/-- A flipper running normally whose last readback callback was at wall-clock
time 0 (so a poll at time 6 is past the 5 s beam-loss window). -/
def sLoss : FState :=
  { running := true, interrupted := false,
    compSpin := 1, ampSpin := 2, decaySpin := 3, filename := "",
    cmptask := some 1, atask := some (3, 2, ""),
    rtask := { i := 4, freq := 10, missed := 0, time := 0, sum_delta_t := 2/5 },
    trace := [DevAct.createReadback, DevAct.startReadback] }

/-- A flipper suspended by beam loss whose readback timestamp has refreshed to
wall-clock time 5 (so a poll at time 6 is inside the 5 s window again). -/
def sSusp : FState :=
  { running := false, interrupted := true,
    compSpin := 1, ampSpin := 2, decaySpin := 3, filename := "",
    cmptask := some 1, atask := none,
    rtask := { i := 7, freq := 10, missed := 0, time := 5, sum_delta_t := 1/5 },
    trace := [DevAct.createReadback, DevAct.startReadback] }

/-- A concrete running flipper state. -/
def sRun : FState :=
  { running := true, interrupted := false,
    compSpin := 1, ampSpin := 2, decaySpin := 3, filename := "",
    cmptask := some 1, atask := some (3, 2, ""),
    rtask := ReadbackTask.init 0,
    trace := [DevAct.createReadback, DevAct.startReadback] }

/-- A concrete idle (not running) flipper state. -/
def sIdle : FState :=
  { running := false, interrupted := false,
    compSpin := 1, ampSpin := 2, decaySpin := 3, filename := "",
    cmptask := none, atask := none,
    rtask := ReadbackTask.init 0,
    trace := [DevAct.createReadback, DevAct.startReadback] }

/-- A device port on which every call succeeds except `StartTask` on the flip
output task. -/
def failStartFlip (a : DevAct) : Bool :=
  match a with
  | DevAct.startFlip => false
  | _ => true

/-- The state in which `on()` aborts when `atask.StartTask()` raises, starting
from `sIdle`: the compensation task has been created, started and cleared, the
flip task has been created (channel, clock, trigger and buffer write all done,
hardware armed) and is still registered in `atask`, and no clear was issued for
it. -/
def sFailed : FState :=
  { sIdle with
    cmptask := some 1, atask := some (3, 2, ""),
    trace := sIdle.trace ++
      [DevAct.createComp 1, DevAct.startComp, DevAct.clearComp,
       DevAct.createFlip 3 2 ""] }

/- ## Theorems -/

/-- The linspace step is exactly one microsecond. -/
theorem dt_eq : dt = 1/1000000 := by
  norm_num [dt, tmin, nSamp]

/-- Closed form of the sample times. -/
theorem tval_eq (k : Nat) : tval k = (1 + (k : ℚ)) / 1000000 := by
  rw [tval, dt_eq, tmin]; ring

/-- Every sample time is strictly positive. -/
theorem tval_pos (k : Nat) : 0 < tval k := by
  rw [tval_eq]
  have hk : (0 : ℚ) ≤ (k : ℚ) := Nat.cast_nonneg k
  positivity

/-- Each clipped analytic sample lies in `[0, amplitude]` as soon as the decay
constant and the amplitude are nonnegative. -/
theorem writeSample_mem_Icc (lamb amplitude : ℚ) (h0 : 0 ≤ amplitude)
    (hl : 0 ≤ lamb) (k : Nat) :
    0 ≤ writeSample lamb amplitude k ∧ writeSample lamb amplitude k ≤ amplitude := by
  by_cases h : amplitude < lamb / tval k
  · simp [writeSample, clipAmp, h, h0]
  · simp only [writeSample, clipAmp, if_neg h]
    exact ⟨div_nonneg hl (tval_pos k).le, not_lt.mp h⟩

/-- C2 counterexample: with `decayConstant = 0` and `maxAmplitude = 1` (a valid
spec — duration and rate are fixed positive in the code, and the clip keeps
every sample at or below 1) the trailing "pad" sample of the synthesized
buffer is 0, not the maximum amplitude 1: the appended sample is a copy of the
first buffer element `write[0]`, which only saturates at `amplitude` when
`lamb / 1e-6` reaches it. -/
theorem waveform_pad_counterexample :
    (analogWrite 0 1).getLast? = some 0 ∧ ((0 : ℚ) = 1 → False) := by
  constructor
  · have h : writeSample 0 1 0 = 0 := by
      norm_num [writeSample, clipAmp]
    rw [analogWrite, h]
    exact List.getLast?_concat _
  · norm_num

/-- C2 (amended): for the analytic path (duration fixed at 50000 samples of
1 µs, pad fixed at one sample), whenever `0 ≤ amplitude` and
`amplitude * 1e-6 ≤ lamb` — i.e. the first sample saturates at the clip —
the buffer has length `50000 + 1`, every sample lies in `[0, amplitude]`, and
the trailing pad sample equals `amplitude` exactly. -/
theorem waveform_bounds_and_pad (lamb amplitude : ℚ)
    (h0 : 0 ≤ amplitude) (h1 : amplitude * tmin ≤ lamb) :
    (analogWrite lamb amplitude).length = nSamp + 1 ∧
    (∀ x ∈ analogWrite lamb amplitude, 0 ≤ x ∧ x ≤ amplitude) ∧
    (analogWrite lamb amplitude).getLast? = some amplitude := by
  have htm : (0 : ℚ) < tmin := by norm_num [tmin]
  have hl : 0 ≤ lamb := le_trans (mul_nonneg h0 htm.le) h1
  refine ⟨?_, ?_, ?_⟩
  · simp only [analogWrite, List.length_append, List.length_ofFn, List.length_singleton]
  · intro x hx
    rcases List.mem_append.mp hx with h | h
    · rcases (List.mem_ofFn _ _).mp h with ⟨k, hk⟩
      rw [← hk]
      exact writeSample_mem_Icc lamb amplitude h0 hl k.val
    · rw [List.mem_singleton.mp h]
      exact writeSample_mem_Icc lamb amplitude h0 hl 0
  · have hfirst : writeSample lamb amplitude 0 = amplitude := by
      have ht0 : tval 0 = tmin := by simp [tval]
      have hge : amplitude ≤ lamb / tval 0 := by
        rw [ht0, le_div_iff₀ htm]
        exact h1
      by_cases h : amplitude < lamb / tval 0
      · simp [writeSample, clipAmp, h]
      · simp only [writeSample, clipAmp, if_neg h]
        exact le_antisymm (not_lt.mp h) hge
    rw [analogWrite, hfirst]
    exact List.getLast?_concat _

/-- C2 witness: the amended statement at `lamb = 1`, `amplitude = 1`. -/
theorem waveform_bounds_and_pad_witness :
    (0 : ℚ) ≤ 1 ∧ (1 : ℚ) * tmin ≤ 1 ∧
    ((analogWrite 1 1).length = nSamp + 1 ∧
     (∀ x ∈ analogWrite 1 1, 0 ≤ x ∧ x ≤ 1) ∧
     (analogWrite 1 1).getLast? = some 1) :=
  ⟨by norm_num, by norm_num [tmin],
   waveform_bounds_and_pad 1 1 (by norm_num) (by norm_num [tmin])⟩

/-- C3: evaluation of the embedded `EveryNCallback` at the spec's test vector.
A fresh monitor (constructed at time 0) fed the ten timestamps 0, 0.1, ..., 0.9
ends with `freq = 0` (its initial value — no frequency was ever computed) and
`missed = 0`, because the guard `i % 10 == 0 and i > 0` tests the counter
before the final increment, so the first computation only happens on the
eleventh callback.  On the eleventh callback (timestamps 0, ..., 1.0) the code
divides by 10 a sum accumulated over eleven deltas; started at time 0 with the
first delta zero this happens to give 10 Hz, but the same perfect 10 Hz train
hitting a monitor constructed one period earlier (time -0.1) computes
100/11 ≈ 9.09 Hz and spuriously increments `missed`. -/
theorem pulse_monitor_tenth_callback_eval :
    (feedTimestamps tsTen (ReadbackTask.init 0)).freq = 0 ∧
    (feedTimestamps tsTen (ReadbackTask.init 0)).missed = 0 ∧
    (feedTimestamps tsTen (ReadbackTask.init 0)).i = 10 ∧
    (feedTimestamps tsEleven (ReadbackTask.init 0)).freq = 10 ∧
    (feedTimestamps tsEleven (ReadbackTask.init 0)).missed = 0 ∧
    (feedTimestamps tsEleven (ReadbackTask.init (-(1/10)))).freq = 100/11 ∧
    (feedTimestamps tsEleven (ReadbackTask.init (-(1/10)))).missed = 1 := by
  simp only [feedTimestamps, tsEleven, tsTen, List.foldl_cons, List.foldl_nil]
  norm_num [ReadbackTask.everyNCallback, ReadbackTask.init, abs_of_pos, abs_of_nonpos]

/-- C4: evaluation at the spec's gapped vector and at a tolerance probe.  The
gapped ten-timestamp vector 0, ..., 0.8, 2.0 leaves `missed = 0` (the claim
expects 1): no frequency is computed within ten callbacks.  And the threshold
the code applies is the absolute 0.1 Hz, not the claimed 10 % (1 Hz): an
eleven-timestamp train whose computed frequency is 9.5 Hz — which is within
the claimed 1 Hz tolerance of 10 Hz — increments `missed`. -/
theorem pulse_monitor_gap_and_tolerance_eval :
    (feedTimestamps tsGap (ReadbackTask.init 0)).missed = 0 ∧
    (feedTimestamps tsGap (ReadbackTask.init 0)).freq = 0 ∧
    (feedTimestamps tsTol (ReadbackTask.init 0)).freq = 19/2 ∧
    abs ((19 : ℚ)/2 - 10) ≤ 1 ∧
    (feedTimestamps tsTol (ReadbackTask.init 0)).missed = 1 := by
  simp only [feedTimestamps, tsGap, tsTol, tsTen, List.foldl_cons, List.foldl_nil]
  norm_num [ReadbackTask.everyNCallback, ReadbackTask.init, abs_of_pos, abs_of_nonpos]

/-- C1: the supervisor tick raises before acting.  The embedded `timeout`
callback fails with `UnboundLocalError` on every tick — in particular on a
beam-loss tick (`running`, readback stale by 6 s) — because its first statement
`time = time()` makes `time` a local name and reads it before assignment, so
neither `Off()` nor `On()` is ever invoked by the supervisor.  The rescoped
guard logic it spells out would implement exactly the claimed transitions:
on the beam-loss state it fires exactly one `Off()` (one `clearFlip` and one
`zeroOutput`) and sets the interrupted flag; on the suspended state with a
fresh readback it fires exactly one `On()` and clears the flag. -/
theorem beam_supervisor_tick_unbound_local :
    Flippr.timeoutTick 6 sLoss = Except.error PyError.unboundLocal ∧
    (Flippr.timeoutTickRescoped 6 sLoss).running = false ∧
    (Flippr.timeoutTickRescoped 6 sLoss).interrupted = true ∧
    (Flippr.timeoutTickRescoped 6 sLoss).trace
      = sLoss.trace ++ [DevAct.clearFlip, DevAct.zeroOutput] ∧
    (Flippr.timeoutTickRescoped 6 sSusp).running = true ∧
    (Flippr.timeoutTickRescoped 6 sSusp).interrupted = false ∧
    (Flippr.timeoutTickRescoped 6 sSusp).trace
      = sSusp.trace ++
        [DevAct.createComp 1, DevAct.startComp, DevAct.clearComp,
         DevAct.createFlip 3 2 "", DevAct.startFlip] := by
  refine ⟨rfl, ?_⟩
  norm_num [Flippr.timeoutTickRescoped, Flippr.off, Flippr.offBody,
            Flippr.on, Flippr.onBody, sLoss, sSusp]

/-- C5 counterexample: `Flippr.fn` (SetWaveformFile) invoked on a running
controller stores the filename and does nothing else — it issues no device
call (trace unchanged) and in particular does not perform the claimed
`Off(); apply; On()` restart cycle. -/
theorem set_waveform_file_counterexample :
    sRun.running = true ∧
    Flippr.fn "wave.txt" sRun = { sRun with filename := "wave.txt" } ∧
    (Flippr.fn "wave.txt" sRun).trace = sRun.trace ∧
    Flippr.fn "wave.txt" sRun ≠ Flippr.on (Flippr.fn "wave.txt" (Flippr.off sRun)) := by
  refine ⟨rfl, rfl, rfl, ?_⟩
  intro h
  have := congrArg FState.trace h
  simp [Flippr.fn, Flippr.on, Flippr.off, Flippr.onBody, Flippr.offBody, sRun] at this

/-- C5 (amended): `SetDecayConstant`, `SetAmplitude` and `SetCompensation` do
perform the full restart cycle when running (`Off()`, apply the spin value,
`On()`) and apply-only when not running; `SetWaveformFile` only stores the
filename, with no restart in either case. -/
theorem setters_restart_semantics (v : ℚ) (f : String) (s : FState) :
    Flippr.const v s
      = (if s.running then Flippr.on (setDecaySpin v (Flippr.off s))
         else setDecaySpin v s) ∧
    Flippr.amplitude v s
      = (if s.running then Flippr.on (setAmpSpin v (Flippr.off s))
         else setAmpSpin v s) ∧
    Flippr.compensate v s
      = (if s.running then Flippr.on (setCompSpin v (Flippr.off s))
         else setCompSpin v s) ∧
    Flippr.fn f s = { s with filename := f } := by
  cases hr : s.running <;>
    simp [Flippr.const, Flippr.amplitude, Flippr.compensate, Flippr.fn,
          Flippr.onoff, Flippr.on, Flippr.off, Flippr.onBody, Flippr.offBody,
          setDecaySpin, setAmpSpin, setCompSpin, hr]

/-- C6: `On()` is idempotent (a second `On()` without an intervening `Off()`
is a strict no-op: same state, same trace, no duplicated tasks) and `Off()`
when already off is a no-op issuing no device calls. -/
theorem on_off_idempotent (s : FState) :
    Flippr.on (Flippr.on s) = Flippr.on s ∧
    Flippr.off (Flippr.off s) = Flippr.off s := by
  cases hr : s.running <;>
    simp [Flippr.on, Flippr.off, Flippr.onBody, Flippr.offBody, hr]

/-- C7 counterexample: when `atask.StartTask()` is the failing device call,
`on()` aborts with the compensation task done and the flip task created —
channel, clock, retrigger wiring and buffer write all performed, the task
still registered in `atask` — and no `ClearTask` is ever issued for it: the
claimed rollback of already-created tasks does not happen. -/
theorem on_failure_no_rollback_counterexample :
    Flippr.onPort failStartFlip sIdle
      = Except.error (DAQError.devFail DevAct.startFlip, sFailed) ∧
    sFailed.running = false ∧
    sFailed.atask = some (3, 2, "") ∧
    DevAct.clearFlip ∉ sFailed.trace := by
  refine ⟨rfl, rfl, rfl, ?_⟩
  decide

/-- C7 (amended): whenever a device call fails during `on()`, the operation
aborts leaving `running = false` (the flag was false on entry — a running
controller's `on()` is a no-op — and the assignment `running = 1` is the last
statement of the body), and the error is surfaced to the caller as the raised
exception; already-created tasks are not rolled back. -/
theorem on_failure_leaves_not_running (port : DevAct → Bool) (s : FState)
    (e : DAQError) (s' : FState)
    (h : Flippr.onPort port s = Except.error (e, s')) :
    s'.running = false ∧ s.running = false := by
  unfold Flippr.onPort at h
  split at h
  · exact absurd h (by simp)
  next hr =>
    have hrf : s.running = false := by simpa using hr
    split at h
    · injection h with h2
      injection h2 with he hs
      subst hs
      exact ⟨hrf, hrf⟩
    · split at h
      · injection h with h2
        injection h2 with he hs
        subst hs
        exact ⟨hrf, hrf⟩
      · split at h
        · injection h with h2
          injection h2 with he hs
          subst hs
          exact ⟨hrf, hrf⟩
        · split at h
          · injection h with h2
            injection h2 with he hs
            subst hs
            exact ⟨hrf, hrf⟩
          · split at h
            · injection h with h2
              injection h2 with he hs
              subst hs
              exact ⟨hrf, hrf⟩
            · exact absurd h (by simp)

/-- C7 witness: the amended statement at the concrete failing port and idle
state of the counterexample. -/
theorem on_failure_leaves_not_running_witness :
    Flippr.onPort failStartFlip sIdle
      = Except.error (DAQError.devFail DevAct.startFlip, sFailed) ∧
    (sFailed.running = false ∧ sIdle.running = false) :=
  ⟨rfl, on_failure_leaves_not_running failStartFlip sIdle
          (DAQError.devFail DevAct.startFlip) sFailed rfl⟩

/-- The toggle block only ever appends to the emissions accumulated so far. -/
theorem toggleBlock_emits (d : String) (acc : List Emit) :
    (toggleBlock d acc).emits = acc ++ (toggleBlock d []).emits := by
  unfold toggleBlock
  split <;> simp

/-- The file block only ever appends to the emissions accumulated so far. -/
theorem fileBlock_emits (d : String) (acc : List Emit) :
    (fileBlock d acc).emits = acc ++ (fileBlock d []).emits := by
  unfold fileBlock
  split
  · split
    · simp
    · rw [toggleBlock_emits, toggleBlock_emits _ ([] ++ [Emit.fn _])]
      simp
  · exact toggleBlock_emits d acc

/-- The const block only ever appends to the emissions accumulated so far. -/
theorem constBlock_emits (d : String) (acc : List Emit) :
    (constBlock d acc).emits = acc ++ (constBlock d []).emits := by
  unfold constBlock
  split
  · split
    · simp
    · split
      · simp
      · rw [fileBlock_emits, fileBlock_emits _ ([] ++ [Emit.const _])]
        simp
  · exact fileBlock_emits d acc

/-- The amp block only ever appends to the emissions accumulated so far. -/
theorem ampBlock_emits (d : String) (acc : List Emit) :
    (ampBlock d acc).emits = acc ++ (ampBlock d []).emits := by
  unfold ampBlock
  split
  · split
    · simp
    · split
      · simp
      · rw [constBlock_emits, constBlock_emits _ ([] ++ [Emit.amp _])]
        simp
  · exact constBlock_emits d acc

/-- Evaluation of Python `float()` on the matched literal "2.5". -/
theorem litToRat_25 : litToRat ['2', '.', '5'] = 5/2 := by
  have h2 : List.takeWhile isDigitC ['2', '.', '5'] = ['2'] := by decide
  have h3 : List.dropWhile isDigitC ['2', '.', '5'] = ['.', '5'] := by decide
  have h4 : digitsToNat ['2'] = 2 := by decide
  have h5 : digitsToNat ['5'] = 5 := by decide
  rw [litToRat, if_neg (by decide), if_neg (by decide), unsignedLitToRat]
  simp only [h2, h3]
  rw [if_pos (by decide : (['.', '5'].head? = some '.'))]
  simp only [List.drop_succ_cons, List.drop_zero, h4, h5, List.length_singleton]
  norm_num

/-- Evaluation of the float extraction on the packet "comp2.5". -/
theorem pyFirstFloat_comp25 : pyFirstFloat "comp2.5" = some (5/2) := by
  have h1 : firstNumToken (String.toList "comp2.5") = some ['2', '.', '5'] := by
    decide
  rw [pyFirstFloat, h1, Option.map_some', litToRat_25]

/-- Evaluation of the float extraction on the packet "amp2.5". -/
theorem pyFirstFloat_amp25 : pyFirstFloat "amp2.5" = some (5/2) := by
  have h1 : firstNumToken (String.toList "amp2.5") = some ['2', '.', '5'] := by
    decide
  rw [pyFirstFloat, h1, Option.map_some', litToRat_25]

/-- Evaluation of the float extraction on the packet "const2.5". -/
theorem pyFirstFloat_const25 : pyFirstFloat "const2.5" = some (5/2) := by
  have h1 : firstNumToken (String.toList "const2.5") = some ['2', '.', '5'] := by
    decide
  rw [pyFirstFloat, h1, Option.map_some', litToRat_25]

/-- A packet containing "toggle" reaching the toggle block dispatches the
toggle signal with the flag chosen by the "1"/"0" substring tests. -/
theorem toggleBlock_toggle_mem (d : String) (acc : List Emit)
    (ht : strContains "toggle" d = true) :
    Emit.toggle (toggleFlag d) ∈ (toggleBlock d acc).emits := by
  have hd : d ≠ "" := by
    intro hd
    rw [hd] at ht
    exact absurd ht (by decide)
  unfold toggleBlock
  rw [if_pos ⟨hd, ht⟩]
  exact List.mem_append_right _ (List.mem_singleton.mpr rfl)

/-- A "toggle" packet without "file" passes the file block untouched and is
dispatched by the toggle block. -/
theorem fileBlock_toggle_mem (d : String) (acc : List Emit)
    (hfile : strContains "file" d = false)
    (ht : strContains "toggle" d = true) :
    Emit.toggle (toggleFlag d) ∈ (fileBlock d acc).emits := by
  unfold fileBlock
  rw [if_neg (by simp [hfile])]
  exact toggleBlock_toggle_mem d acc ht

/-- A non-query packet containing "file" reaching the file block dispatches
the de-spaced, "file"-stripped filename. -/
theorem fileBlock_fn_mem (d : String) (acc : List Emit)
    (hf : strContains "file" d = true)
    (hq : strContains "?" d = false) :
    Emit.fn (emittedFileName d) ∈ (fileBlock d acc).emits := by
  have hd : d ≠ "" := by
    intro hd
    rw [hd] at hf
    exact absurd hf (by decide)
  unfold fileBlock
  rw [if_pos ⟨hd, hf⟩, if_neg (by simp [hq])]
  rw [toggleBlock_emits]
  exact List.mem_append_left _
    (List.mem_append_right _ (List.mem_singleton.mpr rfl))

/-- A non-query "const" packet with an extractable numeric literal reaching
the const block dispatches the const signal. -/
theorem constBlock_const_mem (d : String) (acc : List Emit) (v : ℚ)
    (hc : strContains "const" d = true)
    (hq : strContains "?" d = false)
    (hv : pyFirstFloat d = some v) :
    Emit.const v ∈ (constBlock d acc).emits := by
  have hd : d ≠ "" := by
    intro hd
    rw [hd] at hc
    exact absurd hc (by decide)
  unfold constBlock
  rw [if_pos ⟨hd, hc⟩, if_neg (by simp [hq])]
  simp only [hv]
  rw [fileBlock_emits]
  exact List.mem_append_left _
    (List.mem_append_right _ (List.mem_singleton.mpr rfl))

/-- A non-query "amp" packet with an extractable numeric literal reaching the
amp block dispatches the amp signal. -/
theorem ampBlock_amp_mem (d : String) (acc : List Emit) (v : ℚ)
    (ha : strContains "amp" d = true)
    (hq : strContains "?" d = false)
    (hv : pyFirstFloat d = some v) :
    Emit.amp v ∈ (ampBlock d acc).emits := by
  have hd : d ≠ "" := by
    intro hd
    rw [hd] at ha
    exact absurd ha (by decide)
  unfold ampBlock
  rw [if_pos ⟨hd, ha⟩, if_neg (by simp [hq])]
  simp only [hv]
  rw [constBlock_emits]
  exact List.mem_append_left _
    (List.mem_append_right _ (List.mem_singleton.mpr rfl))

/-- On a non-query packet with an extractable numeric literal the comp block
never aborts: the handler reaches the amp block (with the comp emission
accumulated when "comp" is present). -/
theorem handlePacket_to_ampBlock (d : String) (v : ℚ)
    (hq : strContains "?" d = false) (hv : pyFirstFloat d = some v) :
    ∃ acc, handlePacket d = ampBlock d acc := by
  by_cases hc : strContains "comp" d = true
  · have hd : d ≠ "" := by
      intro hd
      rw [hd] at hc
      exact absurd hc (by decide)
    refine ⟨[] ++ [Emit.comp v], ?_⟩
    unfold handlePacket
    rw [if_pos ⟨hd, hc⟩, if_neg (by simp [hq])]
    simp only [hv]
  · have hc' : strContains "comp" d = false := by simpa using hc
    refine ⟨[], ?_⟩
    unfold handlePacket
    rw [if_neg (by simp [hc'])]

/-- On a non-query packet with an extractable numeric literal the amp block
never aborts: it hands over to the const block. -/
theorem ampBlock_to_constBlock (d : String) (acc : List Emit) (v : ℚ)
    (hq : strContains "?" d = false) (hv : pyFirstFloat d = some v) :
    ∃ acc2, ampBlock d acc = constBlock d acc2 := by
  by_cases ha : strContains "amp" d = true
  · have hd : d ≠ "" := by
      intro hd
      rw [hd] at ha
      exact absurd ha (by decide)
    refine ⟨acc ++ [Emit.amp v], ?_⟩
    unfold ampBlock
    rw [if_pos ⟨hd, ha⟩, if_neg (by simp [hq])]
    simp only [hv]
  · have ha' : strContains "amp" d = false := by simpa using ha
    refine ⟨acc, ?_⟩
    unfold ampBlock
    rw [if_neg (by simp [ha'])]

/-- A non-query "amp" packet with no extractable numeric literal aborts in the
amp block with nothing further emitted. -/
theorem ampBlock_abort (d : String) (acc : List Emit)
    (ha : strContains "amp" d = true) (hq : strContains "?" d = false)
    (hnone : pyFirstFloat d = none) :
    ampBlock d acc = { emits := acc, closed := true } := by
  have hd : d ≠ "" := by
    intro hd
    rw [hd] at ha
    exact absurd ha (by decide)
  unfold ampBlock
  rw [if_pos ⟨hd, ha⟩, if_neg (by simp [hq])]
  simp only [hnone]

/-- A non-query "const" packet with no extractable numeric literal aborts in
the const block with nothing further emitted. -/
theorem constBlock_abort (d : String) (acc : List Emit)
    (hc : strContains "const" d = true) (hq : strContains "?" d = false)
    (hnone : pyFirstFloat d = none) :
    constBlock d acc = { emits := acc, closed := true } := by
  have hd : d ≠ "" := by
    intro hd
    rw [hd] at hc
    exact absurd hc (by decide)
  unfold constBlock
  rw [if_pos ⟨hd, hc⟩, if_neg (by simp [hq])]
  simp only [hnone]

/-- C8 counterexample: the packet "comp" contains the recognized keyword
`comp`, yet nothing is dispatched — `re.findall` finds no numeric literal, the
`[0]` subscript raises `IndexError`, and the connection is torn down exactly
as for an unrecognized packet. -/
theorem keyword_packet_no_number_counterexample :
    strContains "comp" "comp" = true ∧
    handlePacket "comp" = { emits := [], closed := true } := by
  refine ⟨by decide, ?_⟩
  decide

/-- C8 (amended): a packet containing none of the recognized keywords (or an
empty packet, the disconnect signal) produces no emission — hence no effect on
the controller — and the connection is closed.  A non-query packet containing
`comp` (resp. `amp`, `const`) is dispatched to the corresponding operation
whenever a numeric literal can be extracted from the packet text; when no
numeric literal is present, the subscript on the empty `findall` result raises
and the connection closes with nothing dispatched.  A non-query packet whose
recognized keyword is `file` dispatches the de-spaced, "file"-stripped
filename; a packet whose recognized keyword is `toggle` dispatches the toggle
signal with flag 1, 0 or -1 by the "1"/"0" substring tests.  (The keyword
blocks run in sequence, so an earlier aborting numeric block suppresses later
dispatches; the file/toggle parts are stated for packets carrying that keyword
alone, the intended one-keyword-per-packet client behavior.) -/
theorem packet_dispatch_semantics :
    (∀ d : String,
      strContains "comp" d = false → strContains "amp" d = false →
      strContains "const" d = false → strContains "file" d = false →
      strContains "toggle" d = false →
      handlePacket d = { emits := [], closed := true }) ∧
    (∀ (d : String) (v : ℚ),
      strContains "comp" d = true → strContains "?" d = false →
      pyFirstFloat d = some v →
      Emit.comp v ∈ (handlePacket d).emits) ∧
    (∀ (d : String) (v : ℚ),
      strContains "amp" d = true → strContains "?" d = false →
      pyFirstFloat d = some v →
      Emit.amp v ∈ (handlePacket d).emits) ∧
    (∀ (d : String) (v : ℚ),
      strContains "const" d = true → strContains "?" d = false →
      pyFirstFloat d = some v →
      Emit.const v ∈ (handlePacket d).emits) ∧
    (∀ d : String,
      (strContains "comp" d = true ∨ strContains "amp" d = true ∨
       strContains "const" d = true) →
      strContains "?" d = false → pyFirstFloat d = none →
      handlePacket d = { emits := [], closed := true }) ∧
    (∀ d : String,
      strContains "comp" d = false → strContains "amp" d = false →
      strContains "const" d = false → strContains "file" d = true →
      strContains "?" d = false →
      Emit.fn (emittedFileName d) ∈ (handlePacket d).emits) ∧
    (∀ d : String,
      strContains "comp" d = false → strContains "amp" d = false →
      strContains "const" d = false → strContains "file" d = false →
      strContains "toggle" d = true →
      Emit.toggle (toggleFlag d) ∈ (handlePacket d).emits) := by
  refine ⟨?_, ?_, ?_, ?_, ?_, ?_, ?_⟩
  · intro d h1 h2 h3 h4 h5
    simp [handlePacket, ampBlock, constBlock, fileBlock, toggleBlock,
          h1, h2, h3, h4, h5]
  · intro d v hc hq hf
    have hd : d ≠ "" := by
      intro hd
      rw [hd] at hc
      exact absurd hc (by decide)
    unfold handlePacket
    rw [if_pos ⟨hd, hc⟩, if_neg (by simp [hq])]
    simp only [hf, List.nil_append]
    rw [ampBlock_emits]
    exact List.mem_append_left _ (List.mem_singleton.mpr rfl)
  · intro d v ha hq hv
    obtain ⟨acc, he⟩ := handlePacket_to_ampBlock d v hq hv
    rw [he]
    exact ampBlock_amp_mem d acc v ha hq hv
  · intro d v hcst hq hv
    obtain ⟨acc, he⟩ := handlePacket_to_ampBlock d v hq hv
    obtain ⟨acc2, he2⟩ := ampBlock_to_constBlock d acc v hq hv
    rw [he, he2]
    exact constBlock_const_mem d acc2 v hcst hq hv
  · intro d hkey hq hnone
    have habort : ∀ hc : strContains "comp" d = true,
        handlePacket d = { emits := [], closed := true } := by
      intro hc
      have hd : d ≠ "" := by
        intro hd
        rw [hd] at hc
        exact absurd hc (by decide)
      unfold handlePacket
      rw [if_pos ⟨hd, hc⟩, if_neg (by simp [hq])]
      simp only [hnone]
    rcases hkey with hc | ha | hcst
    · exact habort hc
    · by_cases hc : strContains "comp" d = true
      · exact habort hc
      · have hc' : strContains "comp" d = false := by simpa using hc
        unfold handlePacket
        rw [if_neg (by simp [hc'])]
        exact ampBlock_abort d [] ha hq hnone
    · by_cases hc : strContains "comp" d = true
      · exact habort hc
      · have hc' : strContains "comp" d = false := by simpa using hc
        unfold handlePacket
        rw [if_neg (by simp [hc'])]
        by_cases ha : strContains "amp" d = true
        · exact ampBlock_abort d [] ha hq hnone
        · have ha' : strContains "amp" d = false := by simpa using ha
          unfold ampBlock
          rw [if_neg (by simp [ha'])]
          exact constBlock_abort d [] hcst hq hnone
  · intro d hc ha hcst hf hq
    unfold handlePacket
    rw [if_neg (by simp [hc])]
    unfold ampBlock
    rw [if_neg (by simp [ha])]
    unfold constBlock
    rw [if_neg (by simp [hcst])]
    exact fileBlock_fn_mem d [] hf hq
  · intro d hc ha hcst hfile ht
    unfold handlePacket
    rw [if_neg (by simp [hc])]
    unfold ampBlock
    rw [if_neg (by simp [ha])]
    unfold constBlock
    rw [if_neg (by simp [hcst])]
    exact fileBlock_toggle_mem d [] hfile ht

/-- C8 witness: the amended statement at concrete packets — "nonsense" (no
keyword: nothing dispatched, closed), "comp2.5"/"amp2.5"/"const2.5" (each
dispatches its signal with payload 2.5), "comp" (keyword but no numeric
literal: nothing dispatched, closed), "file wave.txt" (dispatches the filename
"wave.txt") and "toggle1" (dispatches toggle flag 1). -/
theorem packet_dispatch_semantics_witness :
    handlePacket "nonsense" = { emits := [], closed := true } ∧
    Emit.comp (5/2) ∈ (handlePacket "comp2.5").emits ∧
    Emit.amp (5/2) ∈ (handlePacket "amp2.5").emits ∧
    Emit.const (5/2) ∈ (handlePacket "const2.5").emits ∧
    handlePacket "comp" = { emits := [], closed := true } ∧
    Emit.fn "wave.txt" ∈ (handlePacket "file wave.txt").emits ∧
    Emit.toggle 1 ∈ (handlePacket "toggle1").emits := by
  refine ⟨?_, ?_, ?_, ?_, ?_, ?_, ?_⟩
  · exact packet_dispatch_semantics.1 "nonsense" (by decide) (by decide)
      (by decide) (by decide) (by decide)
  · exact packet_dispatch_semantics.2.1 "comp2.5" (5/2) (by decide) (by decide)
      pyFirstFloat_comp25
  · exact packet_dispatch_semantics.2.2.1 "amp2.5" (5/2) (by decide)
      (by decide) pyFirstFloat_amp25
  · exact packet_dispatch_semantics.2.2.2.1 "const2.5" (5/2) (by decide)
      (by decide) pyFirstFloat_const25
  · exact packet_dispatch_semantics.2.2.2.2.1 "comp" (Or.inl (by decide))
      (by decide) (by decide)
  · have h := packet_dispatch_semantics.2.2.2.2.2.1 "file wave.txt" (by decide)
      (by decide) (by decide) (by decide) (by decide)
    rwa [show emittedFileName "file wave.txt" = "wave.txt" from by decide] at h
  · have h := packet_dispatch_semantics.2.2.2.2.2.2 "toggle1" (by decide)
      (by decide) (by decide) (by decide) (by decide)
    rwa [show toggleFlag "toggle1" = 1 from by decide] at h

/-- The on body issues no readback lifecycle action. -/
theorem filter_rb_onBody (s : FState) :
    (Flippr.onBody s).trace.filter readbackLifecycle
      = s.trace.filter readbackLifecycle := by
  simp [Flippr.onBody, List.filter_append, readbackLifecycle]

/-- The off body issues no readback lifecycle action. -/
theorem filter_rb_offBody (s : FState) :
    (Flippr.offBody s).trace.filter readbackLifecycle
      = s.trace.filter readbackLifecycle := by
  simp [Flippr.offBody, List.filter_append, readbackLifecycle]

/-- `on()` issues no readback lifecycle action. -/
theorem filter_rb_on (s : FState) :
    (Flippr.on s).trace.filter readbackLifecycle
      = s.trace.filter readbackLifecycle := by
  unfold Flippr.on
  split
  · rfl
  · exact filter_rb_onBody s

/-- `off()` issues no readback lifecycle action. -/
theorem filter_rb_off (s : FState) :
    (Flippr.off s).trace.filter readbackLifecycle
      = s.trace.filter readbackLifecycle := by
  unfold Flippr.off
  split
  · exact filter_rb_offBody s
  · rfl

/-- `onoff()` issues no readback lifecycle action. -/
theorem filter_rb_onoff (s : FState) :
    (Flippr.onoff s).trace.filter readbackLifecycle
      = s.trace.filter readbackLifecycle := by
  unfold Flippr.onoff
  split
  · exact filter_rb_offBody s
  · exact filter_rb_onBody s

/-- No program operation issues a readback lifecycle action. -/
theorem applyOp_filter_rb (op : Op) (s : FState) :
    (applyOp op s).trace.filter readbackLifecycle
      = s.trace.filter readbackLifecycle :=
  match op with
  | Op.on => filter_rb_on s
  | Op.off => filter_rb_off s
  | Op.onoff => filter_rb_onoff s
  | Op.toggle f => by
    show (Flippr.toggle f s).trace.filter readbackLifecycle = _
    unfold Flippr.toggle
    split
    · exact filter_rb_on s
    · split
      · exact filter_rb_off s
      · exact filter_rb_onoff s
  | Op.const v => by
    show (Flippr.const v s).trace.filter readbackLifecycle = _
    unfold Flippr.const
    split
    · rw [filter_rb_onoff]
      exact filter_rb_onoff s
    · rfl
  | Op.amplitude v => by
    show (Flippr.amplitude v s).trace.filter readbackLifecycle = _
    unfold Flippr.amplitude
    split
    · rw [filter_rb_onoff]
      exact filter_rb_onoff s
    · rfl
  | Op.compensate v => by
    show (Flippr.compensate v s).trace.filter readbackLifecycle = _
    unfold Flippr.compensate
    split
    · rw [filter_rb_onoff]
      exact filter_rb_onoff s
    · rfl
  | Op.fn f => rfl
  | Op.tick now => rfl
  | Op.callback t => rfl

/-- Over any operation sequence, the readback lifecycle actions of the trace
are unchanged. -/
theorem runOps_filter_rb (ops : List Op) (s : FState) :
    (runOps ops s).trace.filter readbackLifecycle
      = s.trace.filter readbackLifecycle := by
  induction ops generalizing s with
  | nil => rfl
  | cons op rest ih =>
    show (runOps rest (applyOp op s)).trace.filter readbackLifecycle = _
    rw [ih (applyOp op s), applyOp_filter_rb]

/-- The readback callback always stores the callback wall-clock time. -/
theorem everyNCallback_time (t : ℚ) (m : MonitorState) :
    (ReadbackTask.everyNCallback t m).time = t := by
  simp only [ReadbackTask.everyNCallback]
  split <;> rfl

/-- C9: over every sequence of program operations from startup, the readback
task lifecycle actions in the device trace are exactly the single create and
single start performed by `__init__` — `On()`/`Off()` (and every other
operation) never clear, recreate or restart it — and the readback completion
callback refreshes the readback timestamp without touching (or caring about)
the `running` flag, which is what lets the supervisor observe beam return
while the flipper is off. -/
theorem readback_lifecycle_invariant (ops : List Op) (c a dcy t0 t : ℚ)
    (s : FState) :
    (runOps ops (Flippr.init c a dcy t0)).trace.filter readbackLifecycle
      = [DevAct.createReadback, DevAct.startReadback] ∧
    (applyOp (Op.callback t) s).rtask.time = t ∧
    (applyOp (Op.callback t) s).running = s.running := by
  refine ⟨?_, ?_, rfl⟩
  · rw [runOps_filter_rb]
    rfl
  · exact everyNCallback_time t s.rtask

/-- The readback callback never decreases the missed counter. -/
theorem everyNCallback_missed_le (t : ℚ) (m : MonitorState) :
    m.missed ≤ (ReadbackTask.everyNCallback t m).missed := by
  simp only [ReadbackTask.everyNCallback]
  split
  · split
    · exact Nat.le_succ _
    · exact Nat.le_refl _
  · exact Nat.le_refl _

/-- `on()` does not touch the readback counters. -/
theorem rtask_on (s : FState) : (Flippr.on s).rtask = s.rtask := by
  unfold Flippr.on
  split <;> rfl

/-- `off()` does not touch the readback counters. -/
theorem rtask_off (s : FState) : (Flippr.off s).rtask = s.rtask := by
  unfold Flippr.off
  split <;> rfl

/-- `onoff()` does not touch the readback counters. -/
theorem rtask_onoff (s : FState) : (Flippr.onoff s).rtask = s.rtask := by
  unfold Flippr.onoff
  split <;> rfl

/-- No program operation decreases the missed counter. -/
theorem applyOp_missed_le (op : Op) (s : FState) :
    s.rtask.missed ≤ (applyOp op s).rtask.missed :=
  match op with
  | Op.on => by rw [show (applyOp Op.on s).rtask = s.rtask from rtask_on s]
  | Op.off => by rw [show (applyOp Op.off s).rtask = s.rtask from rtask_off s]
  | Op.onoff => by
    rw [show (applyOp Op.onoff s).rtask = s.rtask from rtask_onoff s]
  | Op.toggle f => by
    show s.rtask.missed ≤ (Flippr.toggle f s).rtask.missed
    unfold Flippr.toggle
    split
    · rw [rtask_on]
    · split
      · rw [rtask_off]
      · rw [rtask_onoff]
  | Op.const v => by
    show s.rtask.missed ≤ (Flippr.const v s).rtask.missed
    unfold Flippr.const
    split
    · rw [rtask_onoff, show (setDecaySpin v (Flippr.onoff s)).rtask
        = (Flippr.onoff s).rtask from rfl, rtask_onoff]
    · exact Nat.le_refl _
  | Op.amplitude v => by
    show s.rtask.missed ≤ (Flippr.amplitude v s).rtask.missed
    unfold Flippr.amplitude
    split
    · rw [rtask_onoff, show (setAmpSpin v (Flippr.onoff s)).rtask
        = (Flippr.onoff s).rtask from rfl, rtask_onoff]
    · exact Nat.le_refl _
  | Op.compensate v => by
    show s.rtask.missed ≤ (Flippr.compensate v s).rtask.missed
    unfold Flippr.compensate
    split
    · rw [rtask_onoff, show (setCompSpin v (Flippr.onoff s)).rtask
        = (Flippr.onoff s).rtask from rfl, rtask_onoff]
    · exact Nat.le_refl _
  | Op.fn f => Nat.le_refl _
  | Op.tick now => Nat.le_refl _
  | Op.callback t => everyNCallback_missed_le t s.rtask

/-- Over any operation sequence, the missed counter never decreases. -/
theorem runOps_missed_le (ops : List Op) (s : FState) :
    s.rtask.missed ≤ (runOps ops s).rtask.missed := by
  induction ops generalizing s with
  | nil => exact Nat.le_refl _
  | cons op rest ih =>
    exact Nat.le_trans (applyOp_missed_le op s) (ih (applyOp op s))

/-- C10: the missed-pulse counter is initialized to 0 by the readback task's
constructor and is monotonically non-decreasing under every operation of the
program — `EveryNCallback` only ever keeps or increments it, and no other
operation touches it. -/
theorem missed_count_monotone (ops : List Op) (s : FState) (t0 : ℚ) :
    s.rtask.missed ≤ (runOps ops s).rtask.missed ∧
    (ReadbackTask.init t0).missed = 0 :=
  ⟨runOps_missed_le ops s, rfl⟩

/-- Consistency of the two embeddings of `on()`: against a port on which every
device call succeeds, `onPort` returns exactly the state produced by the
total embedding `Flippr.on`. -/
theorem onPort_allOk (s : FState) :
    Flippr.onPort (fun _ => true) s = Except.ok (Flippr.on s) := by
  cases hr : s.running <;> simp [Flippr.onPort, Flippr.on, hr]
